import Mathlib

/-!
Verification of the refresh-controller lifecycle of the metrics dashboard
(source: src/App.jsx).  The controller lives inside a React effect: it starts
one foreground cycle, optionally arms a repeating timer that starts background
cycles, and every cycle fetches seven endpoints with Promise.all and commits
the results field by field in one synchronous block, gated on a per-effect
`mounted` flag — a block that can throw mid-way when a 2xx body is literal
null, leaving a partial commit.  We embed the state the effect owns (loading, error, lastUpdated, the
seven view fields, the timer, and the set of in-flight cycles) and the three
kinds of event-loop turns that mutate it: a timer tick, the resumption of a
cycle whose network round-trip settled, and the effect cleanup (teardown).
Machine-level bookkeeping that the JS runtime guarantees (each promise settles
exactly once, only started cycles settle) is modelled by a `pending` list of
cycle ids.  `clock` is an event-loop turn counter standing in for Date.now.
-/

/-- A JSON value as delivered by `res.json()`.  Arrays and objects carry
their elements/fields; scalars are collapsed to the cases the dashboard
reads. -/
inductive JVal where
  | jnull : JVal
  | jbool : Bool → JVal
  | jnum : Int → JVal
  | jstr : String → JVal
  | jarr : List JVal → JVal
  | jobj : List (String × JVal) → JVal

/-- The TypeError raised by JS property access on `null`.  The exact text is
engine-specific; we determinize to the V8 wording without quote marks — the
claims depend only on an error being raised, not on its text. -/
def typeErrorMsg (k : String) : String :=
  "Cannot read properties of null (reading " ++ k ++ ")"

/-- JS property access `j.k`: a TypeError when `j` is literal `null` (the
body `res.json()` yields for a `null` response), otherwise a field of an
object or `undefined` (`none`) — access on numbers, strings, booleans and
arrays does not throw, it yields `undefined` for these keys. -/
def propAccess (j : JVal) (k : String) : Except String (Option JVal) :=
  match j with
  | JVal.jnull => Except.error (typeErrorMsg k)
  | JVal.jobj fs => Except.ok (fs.lookup k)
  | _ => Except.ok none

/-- `Array.isArray(j.k) ? j.k : []` (src/App.jsx lines 92–97): evaluating
`j.k` throws when `j` is null; otherwise a non-array defaults to `[]`. -/
def arrField (j : JVal) (k : String) : Except String (List JVal) :=
  match propAccess j k with
  | Except.error m => Except.error m
  | Except.ok (some (JVal.jarr xs)) => Except.ok xs
  | Except.ok _ => Except.ok []

/-- The defaulted list when the access does not throw (used to state the
view of a commit that ran to completion). -/
def arrFieldD (j : JVal) (k : String) : List JVal :=
  match arrField j k with
  | Except.ok xs => xs
  | Except.error _ => []

/-- Whether `j.k` evaluates, without throwing, to an array. -/
def hasArrayField (j : JVal) (k : String) : Bool :=
  match propAccess j k with
  | Except.ok (some (JVal.jarr _)) => true
  | _ => false

/-- Whether a body is literal `null` — the one case where the commit block's
property access throws. -/
def isNullBody : JVal → Bool
  | JVal.jnull => true
  | _ => false

/-- One HTTP response: status code and parsed JSON body. -/
structure HttpResponse where
  status : Nat
  body : JVal

/-- `res.ok`: status in the inclusive range 200–299. -/
def resOk (r : HttpResponse) : Bool :=
  decide (200 ≤ r.status) && decide (r.status < 300)

/-- `fetchJson` (src/App.jsx lines 29–33): non-2xx throws an Error whose
message is the status rendered as a string, otherwise the body is returned. -/
def fetchJson (r : HttpResponse) : Except String JVal :=
  if resOk r then Except.ok r.body else Except.error (toString r.status)

/-- The seven responses of one cycle, in the order the requests are listed in
the `Promise.all` array (src/App.jsx lines 79–87). -/
structure Responses7 where
  overview : HttpResponse
  timeseries : HttpResponse
  topEvents : HttpResponse
  topPages : HttpResponse
  topReferrers : HttpResponse
  topOutbound : HttpResponse
  recentEvents : HttpResponse

/-- The seven JSON bodies destructured from the `Promise.all` result. -/
def Bodies7 : Type := JVal × JVal × JVal × JVal × JVal × JVal × JVal

/-- The body tuple of a fully successful cycle. -/
def bodiesOf (rs : Responses7) : Bodies7 :=
  (rs.overview.body, rs.timeseries.body, rs.topEvents.body, rs.topPages.body,
   rs.topReferrers.body, rs.topOutbound.body, rs.recentEvents.body)

/-- All seven requests came back 2xx. -/
def allOk (rs : Responses7) : Bool :=
  resOk rs.overview && resOk rs.timeseries && resOk rs.topEvents &&
  resOk rs.topPages && resOk rs.topReferrers && resOk rs.topOutbound &&
  resOk rs.recentEvents

/-- `await Promise.all([...])` over the seven `fetchJson` calls: the tuple of
bodies when every request is 2xx, otherwise the rejection of a failing
request.  (Promise.all surfaces whichever rejection settles first; which one
that is is timing-dependent, so we determinize to the first failing endpoint
in request order — every claim here depends only on success versus failure.) -/
def promiseAll7 (rs : Responses7) : Except String Bodies7 := do
  let overviewJson ← fetchJson rs.overview
  let pvJson ← fetchJson rs.timeseries
  let topEventsJson ← fetchJson rs.topEvents
  let topPagesJson ← fetchJson rs.topPages
  let topRefJson ← fetchJson rs.topReferrers
  let topOutJson ← fetchJson rs.topOutbound
  let recentJson ← fetchJson rs.recentEvents
  return (overviewJson, pvJson, topEventsJson, topPagesJson, topRefJson,
          topOutJson, recentJson)

/-- The seven view fields set by the commit block (src/App.jsx lines 53–59
give the initial values, lines 91–97 the commit). -/
structure ViewState where
  overview : Option JVal
  pageViewsSeries : List JVal
  topEvents : List JVal
  topPages : List JVal
  topReferrers : List JVal
  topOutbound : List JVal
  recentEvents : List JVal

/-- The view produced by a commit block that ran to completion, i.e. no
list body was literal null (src/App.jsx lines 91–97). -/
def viewOfBodies (overviewJson pvJson topEventsJson topPagesJson topRefJson
    topOutJson recentJson : JVal) : ViewState :=
  { overview := some overviewJson
    pageViewsSeries := arrFieldD pvJson ("series")
    topEvents := arrFieldD topEventsJson ("items")
    topPages := arrFieldD topPagesJson ("items")
    topReferrers := arrFieldD topRefJson ("items")
    topOutbound := arrFieldD topOutJson ("items")
    recentEvents := arrFieldD recentJson ("items") }

/-- The view a fully successful cycle with responses `rs` commits. -/
def viewFromResponses (rs : Responses7) : ViewState :=
  viewOfBodies rs.overview.body rs.timeseries.body rs.topEvents.body
    rs.topPages.body rs.topReferrers.body rs.topOutbound.body
    rs.recentEvents.body

/-- Initial view: `useState(null)` for overview, `useState([])` for the six
lists (src/App.jsx lines 53–59). -/
def initViewState : ViewState :=
  { overview := none, pageViewsSeries := [], topEvents := [], topPages := [],
    topReferrers := [], topOutbound := [], recentEvents := [] }

/-- The state owned by one effect instance of the controller.  `mounted` is
the closure flag of src/App.jsx line 69 (each effect instance has its own),
`timerArmed` whether `intervalId` holds a live interval, `pending` the ids of
cycles whose `Promise.all` has not settled yet, `nextCid` the id the next
started cycle receives, and `clock` an event-loop turn counter used as the
timestamp source for `lastUpdated`. -/
structure CtrlState where
  mounted : Bool
  timerArmed : Bool
  loading : Bool
  error : Option String
  lastUpdated : Option Nat
  view : ViewState
  pending : List Nat
  nextCid : Nat
  clock : Nat

/-- State at effect entry: `useState(true)` for loading (line 49), `null`
error and lastUpdated (lines 50–51), empty view, no timer, no cycles. -/
def initState : CtrlState :=
  { mounted := true, timerArmed := false, loading := true, error := none,
    lastUpdated := none, view := initViewState, pending := [], nextCid := 0,
    clock := 0 }

/-- The synchronous prefix of `run` (src/App.jsx lines 72–76): register the
new in-flight cycle; a foreground cycle additionally sets the loading flag
and clears any prior error, a background cycle touches neither. -/
def beginCycle (isBackground : Bool) (s : CtrlState) : CtrlState :=
  let s1 := { s with pending := s.nextCid :: s.pending, nextCid := s.nextCid + 1 }
  if isBackground then s1 else { s1 with loading := true, error := none }

/-- How one cycle's network phase settled. -/
inductive Outcome where
  | responses : Responses7 → Outcome
  | networkFailure : String → Outcome
  | aborted : Outcome

/-- `e?.message || 'Error cargando métricas'` (src/App.jsx line 103). -/
def errMessage (m : String) : String :=
  if m = "" then "Error cargando métricas" else m

/-- The commit block (src/App.jsx lines 91–97), line by line with JS
exception semantics.  `setOverview(overviewJson)` performs no property
access and always runs; each following line first evaluates `body.field` —
which throws a TypeError when that body is literal null — and then stores
the defaulted list.  State updates enqueued before a throw still apply, so
the result is the view as far as the block got, paired with the thrown
message if it did not finish (in which case `setLastUpdated` and
`setError(null)` on lines 98–99 are never reached). -/
def commitFields (v0 : ViewState) (overviewJson pvJson topEventsJson
    topPagesJson topRefJson topOutJson recentJson : JVal) :
    ViewState × Option String :=
  let v := { v0 with overview := some overviewJson }
  match arrField pvJson ("series") with
  | Except.error m => (v, some m)
  | Except.ok xs =>
    let v := { v with pageViewsSeries := xs }
    match arrField topEventsJson ("items") with
    | Except.error m => (v, some m)
    | Except.ok xs =>
      let v := { v with topEvents := xs }
      match arrField topPagesJson ("items") with
      | Except.error m => (v, some m)
      | Except.ok xs =>
        let v := { v with topPages := xs }
        match arrField topRefJson ("items") with
        | Except.error m => (v, some m)
        | Except.ok xs =>
          let v := { v with topReferrers := xs }
          match arrField topOutJson ("items") with
          | Except.error m => (v, some m)
          | Except.ok xs =>
            let v := { v with topOutbound := xs }
            match arrField recentJson ("items") with
            | Except.error m => (v, some m)
            | Except.ok xs => ({ v with recentEvents := xs }, none)

/-- None of the six list bodies is literal null — exactly the condition
under which the commit block runs to completion. -/
def noNullListBody (rs : Responses7) : Bool :=
  !(isNullBody rs.timeseries.body) && !(isNullBody rs.topEvents.body) &&
  !(isNullBody rs.topPages.body) && !(isNullBody rs.topReferrers.body) &&
  !(isNullBody rs.topOutbound.body) && !(isNullBody rs.recentEvents.body)

/-- The resumption of `run` after `await Promise.all` settles (src/App.jsx
lines 78–107).  Settled-responses path: line 89 gates the whole commit on
`mounted`; `commitFields` runs the commit block (lines 91–97) with its
throw-on-null semantics, and only when it completes do `setLastUpdated` and
`setError(null)` (lines 98–99) run — a mid-commit TypeError falls into the
catch, which keeps the partial view and sets the message.  Catch path for a
settled rejection: an AbortError returns before the `mounted` check and
before `setError` (line 101); any other error sets the message when still
mounted (lines 102–103).  The `finally` block (lines 104–107) runs on every
path, including after the early returns, and clears the loading flag when
still mounted. -/
def finishStep (s : CtrlState) (o : Outcome) : CtrlState :=
  let s1 :=
    match o with
    | Outcome.responses rs =>
        match promiseAll7 rs with
        | Except.ok (overviewJson, pvJson, topEventsJson, topPagesJson,
                     topRefJson, topOutJson, recentJson) =>
            if s.mounted then
              match commitFields s.view overviewJson pvJson topEventsJson
                  topPagesJson topRefJson topOutJson recentJson with
              | (v, none) =>
                  { s with
                    view := v
                    lastUpdated := some s.clock
                    error := none }
              | (v, some m) =>
                  { s with view := v, error := some (errMessage m) }
            else s
        | Except.error msg =>
            if s.mounted then { s with error := some (errMessage msg) } else s
    | Outcome.networkFailure msg =>
        if s.mounted then { s with error := some (errMessage msg) } else s
    | Outcome.aborted => s
  if s1.mounted then { s1 with loading := false } else s1

/-- One event-loop turn touching the controller: the interval callback fires
(src/App.jsx lines 114–117), a cycle's `Promise.all` settles and `run`
resumes, or the effect cleanup runs (lines 120–124). -/
inductive Step where
  | timerTick : Step
  | finish : Nat → Outcome → Step
  | teardown : Step

/-- The transition of one turn.  A tick starts a background cycle exactly
when the interval is still installed; a settlement resumes `run` for a cycle
that is actually in flight (each promise settles once); the cleanup flips
`mounted` and clears the interval.  The code has no generation-token check:
`finishStep` looks only at `mounted`. -/
def step (s : CtrlState) (st : Step) : CtrlState :=
  let s := { s with clock := s.clock + 1 }
  match st with
  | Step.timerTick => if s.timerArmed then beginCycle true s else s
  | Step.finish cid o =>
      if s.pending.contains cid then
        finishStep { s with pending := s.pending.filter (fun c => c ≠ cid) } o
      else s
  | Step.teardown => { s with mounted := false, timerArmed := false }

/-- Run a sequence of turns. -/
def runTrace (s : CtrlState) (tr : List Step) : CtrlState :=
  tr.foldl step s

/-- `baseUrl()` (src/App.jsx lines 18–21): empty when the env var is unset or
empty (JS falsiness), otherwise the value with one trailing slash removed. -/
def stripTrailingSlash (u : String) : String :=
  if u.data.getLast? = some ('/') then String.mk u.data.dropLast else u

/-- The configured base url as a string, empty meaning unconfigured. -/
def baseUrl (env : Option String) : String :=
  match env with
  | some u => if u = "" then "" else stripTrailingSlash u
  | none => ""

/-- The effect body (src/App.jsx lines 61–118): with no base url it sets
`loading=false` and the configuration error and returns without starting any
cycle or timer; otherwise it starts the foreground cycle immediately and,
when `refreshSec > 0`, arms the repeating interval. -/
def setupEffect (env : Option String) (refreshSec : Nat) (s : CtrlState) :
    CtrlState :=
  if baseUrl env = "" then
    { s with loading := false, error := some ("Configura VITE_ANALYTICS_URL") }
  else
    let s1 := beginCycle false s
    if refreshSec > 0 then { s1 with timerArmed := true } else s1

/-- The render gate for the loader card (src/App.jsx line 222). -/
def showsLoader (s : CtrlState) : Bool := s.loading

/-- The render gate for the error banner (src/App.jsx line 223). -/
def showsErrorBanner (s : CtrlState) : Bool := !s.loading && s.error.isSome

/-- The render gate for the data content area (src/App.jsx line 225): it
renders only when there is no error, so an error banner replaces the data
rather than overlaying it. -/
def showsContent (s : CtrlState) : Bool := !s.loading && s.error.isNone

/-! ## Basic lemmas about one cycle's network phase -/

lemma promiseAll7_cases (rs : Responses7) :
    (allOk rs = true ∧ promiseAll7 rs = Except.ok (bodiesOf rs)) ∨
    (allOk rs = false ∧ ∃ m, promiseAll7 rs = Except.error m) := by
  by_cases h1 : resOk rs.overview = true
  case neg =>
    rw [Bool.not_eq_true] at h1
    exact Or.inr ⟨by simp [allOk, h1],
      toString rs.overview.status,
      by simp [promiseAll7, fetchJson, h1, bind, Except.bind]⟩
  by_cases h2 : resOk rs.timeseries = true
  case neg =>
    rw [Bool.not_eq_true] at h2
    exact Or.inr ⟨by simp [allOk, h2],
      toString rs.timeseries.status,
      by simp [promiseAll7, fetchJson, h1, h2, bind, Except.bind]⟩
  by_cases h3 : resOk rs.topEvents = true
  case neg =>
    rw [Bool.not_eq_true] at h3
    exact Or.inr ⟨by simp [allOk, h3],
      toString rs.topEvents.status,
      by simp [promiseAll7, fetchJson, h1, h2, h3, bind, Except.bind]⟩
  by_cases h4 : resOk rs.topPages = true
  case neg =>
    rw [Bool.not_eq_true] at h4
    exact Or.inr ⟨by simp [allOk, h4],
      toString rs.topPages.status,
      by simp [promiseAll7, fetchJson, h1, h2, h3, h4, bind, Except.bind]⟩
  by_cases h5 : resOk rs.topReferrers = true
  case neg =>
    rw [Bool.not_eq_true] at h5
    exact Or.inr ⟨by simp [allOk, h5],
      toString rs.topReferrers.status,
      by simp [promiseAll7, fetchJson, h1, h2, h3, h4, h5, bind, Except.bind]⟩
  by_cases h6 : resOk rs.topOutbound = true
  case neg =>
    rw [Bool.not_eq_true] at h6
    exact Or.inr ⟨by simp [allOk, h6],
      toString rs.topOutbound.status,
      by simp [promiseAll7, fetchJson, h1, h2, h3, h4, h5, h6, bind, Except.bind]⟩
  by_cases h7 : resOk rs.recentEvents = true
  case neg =>
    rw [Bool.not_eq_true] at h7
    exact Or.inr ⟨by simp [allOk, h7],
      toString rs.recentEvents.status,
      by simp [promiseAll7, fetchJson, h1, h2, h3, h4, h5, h6, h7, bind, Except.bind]⟩
  exact Or.inl ⟨by simp [allOk, h1, h2, h3, h4, h5, h6, h7],
    by simp [promiseAll7, fetchJson, bodiesOf, h1, h2, h3, h4, h5, h6, h7,
             bind, Except.bind, pure, Except.pure]⟩

lemma promiseAll7_of_allOk (rs : Responses7) (h : allOk rs = true) :
    promiseAll7 rs = Except.ok (bodiesOf rs) := by
  rcases promiseAll7_cases rs with ⟨_, he⟩ | ⟨hf, _⟩
  · exact he
  · rw [h] at hf; cases hf

lemma promiseAll7_of_anyBad (rs : Responses7) (h : allOk rs = false) :
    ∃ m, promiseAll7 rs = Except.error m := by
  rcases promiseAll7_cases rs with ⟨ht, _⟩ | ⟨_, he⟩
  · rw [h] at ht; cases ht
  · exact he

lemma arrField_ok_of_not_null (j : JVal) (k : String)
    (h : isNullBody j = false) : arrField j k = Except.ok (arrFieldD j k) := by
  cases j with
  | jnull => simp [isNullBody] at h
  | jobj fs =>
    cases hl : fs.lookup k with
    | none => simp [arrField, arrFieldD, propAccess, hl]
    | some v => cases v <;> simp [arrField, arrFieldD, propAccess, hl]
  | jbool b => rfl
  | jnum n => rfl
  | jstr t => rfl
  | jarr xs => rfl

lemma arrFieldD_of_no_array (j : JVal) (k : String)
    (h : hasArrayField j k = false) : arrFieldD j k = [] := by
  unfold hasArrayField at h
  unfold arrFieldD arrField
  cases hp : propAccess j k with
  | error m => rfl
  | ok v =>
    rw [hp] at h
    cases v with
    | none => rfl
    | some w => cases w <;> simp_all

/-- With no literal-null list body the commit block runs to completion:
every field of the completed-commit view is installed and nothing is
thrown. -/
lemma commitFields_clean (v : ViewState) (rs : Responses7)
    (h : noNullListBody rs = true) :
    commitFields v rs.overview.body rs.timeseries.body rs.topEvents.body
      rs.topPages.body rs.topReferrers.body rs.topOutbound.body
      rs.recentEvents.body = (viewFromResponses rs, none) := by
  unfold noNullListBody at h
  simp only [Bool.and_eq_true, Bool.not_eq_true'] at h
  obtain ⟨⟨⟨⟨⟨h1, h2⟩, h3⟩, h4⟩, h5⟩, h6⟩ := h
  unfold commitFields
  rw [arrField_ok_of_not_null _ _ h1, arrField_ok_of_not_null _ _ h2,
      arrField_ok_of_not_null _ _ h3, arrField_ok_of_not_null _ _ h4,
      arrField_ok_of_not_null _ _ h5, arrField_ok_of_not_null _ _ h6]
  simp [viewFromResponses, viewOfBodies]

/-! ## Lemmas about single turns and traces -/

lemma runTrace_cons (s : CtrlState) (st : Step) (tr : List Step) :
    runTrace s (st :: tr) = runTrace (step s st) tr := rfl

/-- A single cycle settlement while mounted, all seven responses 2xx and no
literal-null list body: the commit block runs to completion — all seven view
fields, the timestamp and the cleared error — and the `finally` clears the
loading flag. -/
lemma commit_on_success (s : CtrlState) (cid : Nat) (rs : Responses7)
    (hm : s.mounted = true) (hp : s.pending.contains cid = true)
    (hok : allOk rs = true) (hclean : noNullListBody rs = true) :
    (step s (Step.finish cid (Outcome.responses rs))).view = viewFromResponses rs ∧
    (step s (Step.finish cid (Outcome.responses rs))).error = none ∧
    (step s (Step.finish cid (Outcome.responses rs))).lastUpdated = some (s.clock + 1) ∧
    (step s (Step.finish cid (Outcome.responses rs))).loading = false ∧
    (step s (Step.finish cid (Outcome.responses rs))).mounted = true := by
  have hok' := promiseAll7_of_allOk rs hok
  have hp' : cid ∈ s.pending := by simpa using hp
  have hcf := commitFields_clean s.view rs hclean
  simp [step, hp', finishStep, hok', bodiesOf, hm, hcf]

/-- A single cycle settlement while mounted with some non-2xx response: no
view field changes, the error becomes set, loading is cleared. -/
lemma fail_on_anyBad (s : CtrlState) (cid : Nat) (rs : Responses7)
    (hm : s.mounted = true) (hp : s.pending.contains cid = true)
    (hbad : allOk rs = false) :
    (step s (Step.finish cid (Outcome.responses rs))).view = s.view ∧
    (step s (Step.finish cid (Outcome.responses rs))).error.isSome = true ∧
    (step s (Step.finish cid (Outcome.responses rs))).loading = false ∧
    (step s (Step.finish cid (Outcome.responses rs))).lastUpdated = s.lastUpdated := by
  obtain ⟨m, he⟩ := promiseAll7_of_anyBad rs hbad
  have hp' : cid ∈ s.pending := by simpa using hp
  simp [step, hp', finishStep, he, hm]

/-- After the cleanup has run (`mounted = false`, interval cleared), no turn
changes the user-visible state or starts a cycle. -/
lemma step_unmounted (s : CtrlState) (st : Step)
    (h1 : s.mounted = false) (h2 : s.timerArmed = false) :
    (step s st).mounted = false ∧ (step s st).timerArmed = false ∧
    (step s st).view = s.view ∧ (step s st).loading = s.loading ∧
    (step s st).error = s.error ∧ (step s st).lastUpdated = s.lastUpdated ∧
    (step s st).nextCid = s.nextCid := by
  cases st with
  | timerTick => simp [step, h1, h2]
  | teardown => simp [step, h1, h2]
  | finish cid o =>
    by_cases hc : cid ∈ s.pending
    · cases o with
      | responses rs =>
        rcases promiseAll7_cases rs with ⟨_, he⟩ | ⟨_, m, he⟩
        · simp [step, hc, finishStep, he, bodiesOf, h1, h2]
        · simp [step, hc, finishStep, he, h1, h2]
      | networkFailure msg => simp [step, hc, finishStep, h1, h2]
      | aborted => simp [step, hc, finishStep, h1, h2]
    · simp [step, hc, h1, h2]

lemma runTrace_unmounted (tr : List Step) : ∀ s : CtrlState,
    s.mounted = false → s.timerArmed = false →
    (runTrace s tr).mounted = false ∧ (runTrace s tr).timerArmed = false ∧
    (runTrace s tr).view = s.view ∧ (runTrace s tr).loading = s.loading ∧
    (runTrace s tr).error = s.error ∧
    (runTrace s tr).lastUpdated = s.lastUpdated ∧
    (runTrace s tr).nextCid = s.nextCid := by
  induction tr with
  | nil => intro s h1 h2; exact ⟨h1, h2, rfl, rfl, rfl, rfl, rfl⟩
  | cons st tr ih =>
    intro s h1 h2
    obtain ⟨a1, a2, a3, a4, a5, a6, a7⟩ := step_unmounted s st h1 h2
    obtain ⟨b1, b2, b3, b4, b5, b6, b7⟩ := ih (step s st) a1 a2
    rw [runTrace_cons]
    exact ⟨b1, b2, b3.trans a3, b4.trans a4, b5.trans a5, b6.trans a6,
           b7.trans a7⟩

/-- With no cycle in flight and no interval armed, every turn is inert on
the user-visible state. -/
lemma step_inert (s : CtrlState) (st : Step)
    (h1 : s.pending = []) (h2 : s.timerArmed = false) :
    (step s st).pending = [] ∧ (step s st).timerArmed = false ∧
    (step s st).view = s.view ∧ (step s st).loading = s.loading ∧
    (step s st).error = s.error ∧ (step s st).lastUpdated = s.lastUpdated ∧
    (step s st).nextCid = s.nextCid := by
  cases st with
  | timerTick => simp [step, h2, h1]
  | teardown => simp [step, h2, h1]
  | finish cid o => simp [step, h1, h2]

lemma runTrace_inert (tr : List Step) : ∀ s : CtrlState,
    s.pending = [] → s.timerArmed = false →
    (runTrace s tr).pending = [] ∧ (runTrace s tr).timerArmed = false ∧
    (runTrace s tr).view = s.view ∧ (runTrace s tr).loading = s.loading ∧
    (runTrace s tr).error = s.error ∧
    (runTrace s tr).lastUpdated = s.lastUpdated ∧
    (runTrace s tr).nextCid = s.nextCid := by
  induction tr with
  | nil => intro s h1 h2; exact ⟨h1, h2, rfl, rfl, rfl, rfl, rfl⟩
  | cons st tr ih =>
    intro s h1 h2
    obtain ⟨a1, a2, a3, a4, a5, a6, a7⟩ := step_inert s st h1 h2
    obtain ⟨b1, b2, b3, b4, b5, b6, b7⟩ := ih (step s st) a1 a2
    rw [runTrace_cons]
    exact ⟨b1, b2, b3.trans a3, b4.trans a4, b5.trans a5, b6.trans a6,
           b7.trans a7⟩

/-- Whether a turn is the settlement of an all-2xx cycle whose commit block
throws mid-way on a literal-null list body (producing a partial commit). -/
def stepMayThrowCommit : Step → Bool
  | Step.finish _ (Outcome.responses rs) => allOk rs && !(noNullListBody rs)
  | _ => false

/-- A turn that is not a throwing commit either leaves the view untouched or
is the settlement of a fully successful cycle and installs exactly that
cycle's seven results. -/
lemma step_view_eq (s : CtrlState) (st : Step)
    (hsafe : stepMayThrowCommit st = false) :
    (step s st).view = s.view ∨
    ∃ cid rs, st = Step.finish cid (Outcome.responses rs) ∧ allOk rs = true ∧
      noNullListBody rs = true ∧ (step s st).view = viewFromResponses rs := by
  cases st with
  | timerTick =>
    left; by_cases hT : s.timerArmed = true <;> simp [step, hT, beginCycle]
  | teardown => left; simp [step]
  | finish cid o =>
    by_cases hc : cid ∈ s.pending
    · cases o with
      | responses rs =>
        rcases promiseAll7_cases rs with ⟨hok, he⟩ | ⟨_, m, he⟩
        · have hnn : noNullListBody rs = true := by
            simp [stepMayThrowCommit, hok] at hsafe
            exact hsafe
          by_cases hm : s.mounted = true
          · right
            have hcf := commitFields_clean s.view rs hnn
            exact ⟨cid, rs, rfl, hok, hnn,
              by simp [step, hc, finishStep, he, bodiesOf, hm, hcf]⟩
          · left
            rw [Bool.not_eq_true] at hm
            simp [step, hc, finishStep, he, bodiesOf, hm]
        · left
          by_cases hm : s.mounted = true <;>
            simp_all [step, hc, finishStep, he]
      | networkFailure msg =>
        left
        by_cases hm : s.mounted = true <;> simp_all [step, hc, finishStep]
      | aborted =>
        left
        by_cases hm : s.mounted = true <;> simp_all [step, hc, finishStep]
    · left; simp [step, hc]

/-- Whether a turn is the settlement of an all-2xx cycle (throwing on a null
body or not — either way it can touch the view). -/
def isSuccessFinish : Step → Bool
  | Step.finish _ (Outcome.responses rs) => allOk rs
  | _ => false

lemma step_view_of_not_success (s : CtrlState) (st : Step)
    (h : isSuccessFinish st = false) : (step s st).view = s.view := by
  have hsafe : stepMayThrowCommit st = false := by
    cases st with
    | finish cid o =>
      cases o with
      | responses rs =>
        simp [isSuccessFinish] at h
        simp [stepMayThrowCommit, h]
      | networkFailure msg => rfl
      | aborted => rfl
    | timerTick => rfl
    | teardown => rfl
  rcases step_view_eq s st hsafe with hv | ⟨cid, rs, hst, hok, _, _⟩
  · exact hv
  · subst hst
    simp [isSuccessFinish, hok] at h

lemma runTrace_view_of_no_success (tr : List Step)
    (h : tr.all (fun st => !isSuccessFinish st) = true) :
    ∀ s : CtrlState, (runTrace s tr).view = s.view := by
  induction tr with
  | nil => intro s; rfl
  | cons st tr ih =>
    rw [List.all_cons, Bool.and_eq_true] at h
    intro s
    rw [runTrace_cons]
    refine (ih h.2 (step s st)).trans ?_
    exact step_view_of_not_success s st (by simpa using h.1)

/-- A 200 response with the given body. -/
def okResp (b : JVal) : HttpResponse := { status := 200, body := b }

/-- A 200 response whose body is the empty object. -/
def emptyObjResp : HttpResponse := okResp (JVal.jobj [])

/-- Seven 200 responses: the given overview body, empty objects elsewhere. -/
def mkOk7 (o : JVal) : Responses7 :=
  { overview := okResp o, timeseries := emptyObjResp,
    topEvents := emptyObjResp, topPages := emptyObjResp,
    topReferrers := emptyObjResp, topOutbound := emptyObjResp,
    recentEvents := emptyObjResp }

/-- Successful responses of an earlier cycle. -/
def rsA : Responses7 := mkOk7 (JVal.jnum 1)

/-- Successful responses of a later cycle, distinguishable from the first. -/
def rsB : Responses7 := mkOk7 (JVal.jnum 2)

/-- Overview returns 500, the other six endpoints return 200. -/
def rsOverview500 : Responses7 :=
  { mkOk7 (JVal.jobj []) with
    overview := { status := 500, body := JVal.jobj [] } }

/-- All-2xx responses whose timeseries body is literal null (and overview
body 9): the commit block throws at `pvJson.series` after `setOverview`. -/
def rsNullSeries : Responses7 :=
  { mkOk7 (JVal.jnum 9) with timeseries := okResp JVal.jnull }

/-! ## Claim theorems -/

/-- C1 counterexample.  The claim says a cycle issued earlier that completes
later never has its results committed.  In the code the commit is gated only
on the per-effect `mounted` flag, not on a generation token, so it fails:
cycle 0 is the foreground cycle started at effect setup, cycle 1 is a
background cycle started by a timer tick before cycle 0's round-trip
finished; cycle 1 settles first and commits, then cycle 0 settles and its
stale results are committed over cycle 1's, ending up in the final view even
though the two result sets differ. -/
theorem c1_stale_commit_counterexample :
    (runTrace (setupEffect (some ("http://analytics")) 15 initState)
        [Step.timerTick, Step.finish 1 (Outcome.responses rsB),
         Step.finish 0 (Outcome.responses rsA)]).view
      = viewFromResponses rsA ∧
    viewFromResponses rsA ≠ viewFromResponses rsB := by
  constructor
  · rfl
  · intro h
    have h2 := congrArg ViewState.overview h
    simp [viewFromResponses, viewOfBodies, rsA, rsB, mkOk7, okResp] at h2

/-- C1 (amended): commits follow completion order while the effect instance
is live, not issuance order.  Whenever a cycle settles with all seven
responses 2xx and no literal-null list body (so the commit block runs to
completion) while `mounted` still holds, its results are committed —
regardless of how many later-issued cycles ran meanwhile — and they are the
final view as long as no further all-2xx settlement follows.  A
later-issued cycle's state is therefore overwritten by an earlier-issued,
later-completing cycle; only teardown suppresses a late response. -/
theorem c1_completion_order_commit (s : CtrlState) (cid : Nat)
    (rs : Responses7) (tr : List Step) (hm : s.mounted = true)
    (hp : s.pending.contains cid = true) (hok : allOk rs = true)
    (hclean : noNullListBody rs = true)
    (hrest : tr.all (fun st => !isSuccessFinish st) = true) :
    (runTrace (step s (Step.finish cid (Outcome.responses rs))) tr).view
      = viewFromResponses rs := by
  rw [runTrace_view_of_no_success tr hrest]
  exact (commit_on_success s cid rs hm hp hok hclean).1

/-- Witness for C1 (amended): the foreground cycle of a fresh effect settles
successfully; a tick, the teardown and a late canceled settlement follow and
leave its committed view in place. -/
theorem c1_completion_order_commit_witness :
    (runTrace (step (setupEffect (some ("http://analytics")) 15 initState)
        (Step.finish 0 (Outcome.responses rsA)))
        [Step.timerTick, Step.teardown, Step.finish 1 Outcome.aborted]).view
      = viewFromResponses rsA :=
  c1_completion_order_commit (setupEffect (some ("http://analytics")) 15
    initState) 0 rsA [Step.timerTick, Step.teardown,
    Step.finish 1 Outcome.aborted] rfl rfl rfl rfl rfl

/-- C2: teardown safety.  Running the cleanup (`mounted := false`,
`clearInterval`) guarantees that no later turn — in particular the
settlement of any cycle that was in flight at teardown — changes the view,
the loading flag, the error or `lastUpdated`, and that no further cycle ever
starts (`nextCid` is the count of started cycles). -/
theorem c2_teardown_safety (s : CtrlState) (tr : List Step) :
    (step s Step.teardown).timerArmed = false ∧
    (runTrace (step s Step.teardown) tr).view = s.view ∧
    (runTrace (step s Step.teardown) tr).loading = s.loading ∧
    (runTrace (step s Step.teardown) tr).error = s.error ∧
    (runTrace (step s Step.teardown) tr).lastUpdated = s.lastUpdated ∧
    (runTrace (step s Step.teardown) tr).timerArmed = false ∧
    (runTrace (step s Step.teardown) tr).nextCid = s.nextCid := by
  have hm : (step s Step.teardown).mounted = false := by simp [step]
  have ht : (step s Step.teardown).timerArmed = false := by simp [step]
  obtain ⟨a1, a2, a3, a4, a5, a6, a7⟩ :=
    runTrace_unmounted tr (step s Step.teardown) hm ht
  have hv : (step s Step.teardown).view = s.view := by simp [step]
  have hl : (step s Step.teardown).loading = s.loading := by simp [step]
  have he : (step s Step.teardown).error = s.error := by simp [step]
  have hu : (step s Step.teardown).lastUpdated = s.lastUpdated := by
    simp [step]
  have hn : (step s Step.teardown).nextCid = s.nextCid := by simp [step]
  exact ⟨ht, a3.trans hv, a4.trans hl, a5.trans he, a6.trans hu, a2,
         a7.trans hn⟩

/-- C4: fail-fast on any endpoint.  If a cycle settles with any one of the
seven responses non-2xx while the effect is live, no view field is
committed, the error becomes set and the loading flag is cleared. -/
theorem c4_fail_fast (s : CtrlState) (cid : Nat) (rs : Responses7)
    (hm : s.mounted = true) (hp : s.pending.contains cid = true)
    (hbad : allOk rs = false) :
    (step s (Step.finish cid (Outcome.responses rs))).view = s.view ∧
    (step s (Step.finish cid (Outcome.responses rs))).error.isSome = true ∧
    (step s (Step.finish cid (Outcome.responses rs))).loading = false := by
  obtain ⟨h1, h2, h3, h4⟩ := fail_on_anyBad s cid rs hm hp hbad
  exact ⟨h1, h2, h3⟩

/-- Witness for C4, the spec's scenario: overview returns 500 while the
other six endpoints return 200; the cycle fails with no field committed and
the error message is the status string. -/
theorem c4_fail_fast_witness :
    ((step (setupEffect (some ("http://analytics")) 0 initState)
        (Step.finish 0 (Outcome.responses rsOverview500))).view
      = (setupEffect (some ("http://analytics")) 0 initState).view ∧
    (step (setupEffect (some ("http://analytics")) 0 initState)
        (Step.finish 0 (Outcome.responses rsOverview500))).error.isSome
      = true ∧
    (step (setupEffect (some ("http://analytics")) 0 initState)
        (Step.finish 0 (Outcome.responses rsOverview500))).loading = false) ∧
    (step (setupEffect (some ("http://analytics")) 0 initState)
        (Step.finish 0 (Outcome.responses rsOverview500))).error
      = some ("500") :=
  ⟨c4_fail_fast (setupEffect (some ("http://analytics")) 0 initState) 0
      rsOverview500 rfl rfl rfl, rfl⟩

/-- C5 counterexample.  The claim says every response whose expected array
field is missing or not an array yields an empty committed list and no
error.  A literal-null 2xx body is such a response (its field is certainly
not an array), yet the code throws a TypeError at the property access
instead of defaulting: the cycle ends with the error set, refuting the "no
error is raised" part. -/
theorem c5_null_body_counterexample :
    allOk rsNullSeries = true ∧
    hasArrayField rsNullSeries.timeseries.body ("series") = false ∧
    (step (setupEffect (some ("http://analytics")) 0 initState)
        (Step.finish 0 (Outcome.responses rsNullSeries))).error
      = some (errMessage (typeErrorMsg ("series"))) ∧
    (step (setupEffect (some ("http://analytics")) 0 initState)
        (Step.finish 0 (Outcome.responses rsNullSeries))).error.isSome
      = true :=
  ⟨rfl, rfl, rfl, rfl⟩

/-- C5 (amended): empty-array defaulting holds for non-null bodies.  For a
cycle that settles all-2xx with no literal-null list body, if a list
endpoint's body lacks the expected array field (missing or not an array,
e.g. the empty object), the committed view holds the empty list for that
field and no error is raised; a literal-null body is the exception — there
the access throws a TypeError which the catch surfaces as an error, with no
defaulting. -/
theorem c5_empty_array_defaulting (s : CtrlState) (cid : Nat)
    (rs : Responses7) (hm : s.mounted = true)
    (hp : s.pending.contains cid = true) (hok : allOk rs = true)
    (hclean : noNullListBody rs = true)
    (h1 : hasArrayField rs.timeseries.body ("series") = false)
    (h2 : hasArrayField rs.topEvents.body ("items") = false)
    (h3 : hasArrayField rs.topPages.body ("items") = false)
    (h4 : hasArrayField rs.topReferrers.body ("items") = false)
    (h5 : hasArrayField rs.topOutbound.body ("items") = false)
    (h6 : hasArrayField rs.recentEvents.body ("items") = false) :
    (step s (Step.finish cid (Outcome.responses rs))).view.pageViewsSeries = [] ∧
    (step s (Step.finish cid (Outcome.responses rs))).view.topEvents = [] ∧
    (step s (Step.finish cid (Outcome.responses rs))).view.topPages = [] ∧
    (step s (Step.finish cid (Outcome.responses rs))).view.topReferrers = [] ∧
    (step s (Step.finish cid (Outcome.responses rs))).view.topOutbound = [] ∧
    (step s (Step.finish cid (Outcome.responses rs))).view.recentEvents = [] ∧
    (step s (Step.finish cid (Outcome.responses rs))).error = none := by
  obtain ⟨hv, he, -, -, -⟩ := commit_on_success s cid rs hm hp hok hclean
  rw [hv]
  refine ⟨?_, ?_, ?_, ?_, ?_, ?_, he⟩
  · simp [viewFromResponses, viewOfBodies, arrFieldD_of_no_array _ _ h1]
  · simp [viewFromResponses, viewOfBodies, arrFieldD_of_no_array _ _ h2]
  · simp [viewFromResponses, viewOfBodies, arrFieldD_of_no_array _ _ h3]
  · simp [viewFromResponses, viewOfBodies, arrFieldD_of_no_array _ _ h4]
  · simp [viewFromResponses, viewOfBodies, arrFieldD_of_no_array _ _ h5]
  · simp [viewFromResponses, viewOfBodies, arrFieldD_of_no_array _ _ h6]

/-- Witness for C5: every list endpoint answers 200 with body the empty
object; the committed view holds empty lists and no error. -/
theorem c5_empty_array_defaulting_witness :
    (step (setupEffect (some ("http://analytics")) 0 initState)
        (Step.finish 0 (Outcome.responses rsB))).view.pageViewsSeries = [] ∧
    (step (setupEffect (some ("http://analytics")) 0 initState)
        (Step.finish 0 (Outcome.responses rsB))).view.topEvents = [] ∧
    (step (setupEffect (some ("http://analytics")) 0 initState)
        (Step.finish 0 (Outcome.responses rsB))).view.topPages = [] ∧
    (step (setupEffect (some ("http://analytics")) 0 initState)
        (Step.finish 0 (Outcome.responses rsB))).view.topReferrers = [] ∧
    (step (setupEffect (some ("http://analytics")) 0 initState)
        (Step.finish 0 (Outcome.responses rsB))).view.topOutbound = [] ∧
    (step (setupEffect (some ("http://analytics")) 0 initState)
        (Step.finish 0 (Outcome.responses rsB))).view.recentEvents = [] ∧
    (step (setupEffect (some ("http://analytics")) 0 initState)
        (Step.finish 0 (Outcome.responses rsB))).error = none :=
  c5_empty_array_defaulting (setupEffect (some ("http://analytics")) 0
    initState) 0 rsB rfl rfl rfl rfl rfl rfl rfl rfl rfl rfl

/-- C6: cancellation is silent.  A cycle that settles with an AbortError
(its own signal fired at teardown) never changes the error state: the catch
clause returns before `setError`, so no user-visible error message comes
from a canceled cycle. -/
theorem c6_cancellation_silent (s : CtrlState) (cid : Nat) :
    (step s (Step.finish cid Outcome.aborted)).error = s.error := by
  by_cases hc : cid ∈ s.pending
  · by_cases hm : s.mounted = true <;> simp_all [step, finishStep, hc]
  · simp [step, hc]

/-- C7: loading-flag discipline.  A foreground cycle begins by setting the
loading flag and clearing any prior error; a background cycle's start leaves
both untouched, and no turn of the event loop (tick, settlement, teardown)
ever raises the loading flag — so a background cycle never transitions the
status to Loading. -/
theorem c7_loading_discipline :
    (∀ s : CtrlState, (beginCycle false s).loading = true ∧
        (beginCycle false s).error = none) ∧
    (∀ s : CtrlState, (beginCycle true s).loading = s.loading ∧
        (beginCycle true s).error = s.error) ∧
    (∀ (s : CtrlState) (st : Step),
        (step s st).loading = true → s.loading = true) := by
  refine ⟨fun s => ⟨by simp [beginCycle], by simp [beginCycle]⟩,
          fun s => ⟨by simp [beginCycle], by simp [beginCycle]⟩, ?_⟩
  intro s st h
  cases st with
  | timerTick =>
    by_cases hT : s.timerArmed = true <;> simp_all [step, beginCycle]
  | teardown => simpa [step] using h
  | finish cid o =>
    by_cases hc : cid ∈ s.pending
    · cases o with
      | responses rs =>
        rcases promiseAll7_cases rs with ⟨_, he⟩ | ⟨_, m, he⟩
        · rcases hcf : commitFields s.view rs.overview.body
              rs.timeseries.body rs.topEvents.body rs.topPages.body
              rs.topReferrers.body rs.topOutbound.body rs.recentEvents.body
            with ⟨v, mo⟩
          cases mo <;> by_cases hm : s.mounted = true <;>
            simp_all [step, finishStep, he, bodiesOf, hcf]
        · by_cases hm : s.mounted = true <;>
            simp_all [step, finishStep, he]
      | networkFailure msg =>
        by_cases hm : s.mounted = true <;> simp_all [step, finishStep]
      | aborted =>
        by_cases hm : s.mounted = true <;> simp_all [step, finishStep]
    · simp_all [step, hc]

/-- Witness for C7's implication: a concrete turn whose post-state has the
loading flag up, traced back to the flag being up before. -/
theorem c7_loading_discipline_witness : initState.loading = true :=
  c7_loading_discipline.2.2 initState Step.teardown (by rfl)

/-- C8 counterexample.  The claim says that after a failed background cycle
the previously rendered data remains visible underneath the error banner.
The render (src/App.jsx lines 222–225) shows the content area only when
there is no error, so it is false: from a committed Ready state (content
showing), a background cycle failing with a 500 sets the error and the view
keeps its values, but the banner replaces the content — `showsContent`
becomes false. -/
theorem c8_data_hidden_counterexample :
    (runTrace (setupEffect (some ("http://analytics")) 15 initState)
        [Step.finish 0 (Outcome.responses rsA)]).error = none ∧
    showsContent (runTrace (setupEffect (some ("http://analytics")) 15
        initState) [Step.finish 0 (Outcome.responses rsA)]) = true ∧
    (runTrace (setupEffect (some ("http://analytics")) 15 initState)
        [Step.finish 0 (Outcome.responses rsA), Step.timerTick,
         Step.finish 1 (Outcome.responses rsOverview500)]).error
      = some ("500") ∧
    (runTrace (setupEffect (some ("http://analytics")) 15 initState)
        [Step.finish 0 (Outcome.responses rsA), Step.timerTick,
         Step.finish 1 (Outcome.responses rsOverview500)]).view
      = (runTrace (setupEffect (some ("http://analytics")) 15 initState)
        [Step.finish 0 (Outcome.responses rsA)]).view ∧
    showsErrorBanner (runTrace (setupEffect (some ("http://analytics")) 15
        initState) [Step.finish 0 (Outcome.responses rsA), Step.timerTick,
         Step.finish 1 (Outcome.responses rsOverview500)]) = true ∧
    showsContent (runTrace (setupEffect (some ("http://analytics")) 15
        initState) [Step.finish 0 (Outcome.responses rsA), Step.timerTick,
         Step.finish 1 (Outcome.responses rsOverview500)]) = false :=
  ⟨rfl, rfl, rfl, rfl, rfl, rfl⟩

/-- C8 (amended): when a cycle fails while the effect is live, the error is
set and all seven view fields and the timestamp keep their prior values (the
data is not cleared from state), but the content area is not rendered while
the error banner shows — the banner replaces the content instead of
overlaying it. -/
theorem c8_background_failure_frame (s : CtrlState) (cid : Nat)
    (rs : Responses7) (hm : s.mounted = true)
    (hp : s.pending.contains cid = true) (hbad : allOk rs = false) :
    (step s (Step.finish cid (Outcome.responses rs))).error.isSome = true ∧
    (step s (Step.finish cid (Outcome.responses rs))).view = s.view ∧
    (step s (Step.finish cid (Outcome.responses rs))).lastUpdated
      = s.lastUpdated ∧
    showsErrorBanner (step s (Step.finish cid (Outcome.responses rs)))
      = true ∧
    showsContent (step s (Step.finish cid (Outcome.responses rs)))
      = false := by
  obtain ⟨h1, h2, h3, h4⟩ := fail_on_anyBad s cid rs hm hp hbad
  refine ⟨h2, h1, h4, ?_, ?_⟩
  · simp [showsErrorBanner, h3, h2]
  · cases he : (step s (Step.finish cid (Outcome.responses rs))).error with
    | none => rw [he] at h2; cases h2
    | some m => simp [showsContent, he, h3]

/-- Witness for C8 (amended): a live state with a pending background cycle
whose overview request returns 500. -/
theorem c8_background_failure_frame_witness :
    (step (setupEffect (some ("http://analytics")) 15 initState)
        (Step.finish 0 (Outcome.responses rsOverview500))).error.isSome
      = true ∧
    (step (setupEffect (some ("http://analytics")) 15 initState)
        (Step.finish 0 (Outcome.responses rsOverview500))).view
      = (setupEffect (some ("http://analytics")) 15 initState).view ∧
    (step (setupEffect (some ("http://analytics")) 15 initState)
        (Step.finish 0 (Outcome.responses rsOverview500))).lastUpdated
      = (setupEffect (some ("http://analytics")) 15 initState).lastUpdated ∧
    showsErrorBanner (step (setupEffect (some ("http://analytics")) 15
        initState) (Step.finish 0 (Outcome.responses rsOverview500)))
      = true ∧
    showsContent (step (setupEffect (some ("http://analytics")) 15
        initState) (Step.finish 0 (Outcome.responses rsOverview500)))
      = false :=
  c8_background_failure_frame (setupEffect (some ("http://analytics")) 15
    initState) 0 rsOverview500 rfl rfl rfl

/-- C9: ConfigurationMissing is terminal.  With no base url configured the
effect sets the single configuration error message and `loading = false`,
starts no cycle (no request is issued, `nextCid` stays 0, nothing is in
flight) and arms no timer; and no sequence of later turns can change the
error, start a cycle, or arm the timer — no retry happens until the effect
is re-run with a configured url. -/
theorem c9_configuration_missing_terminal (refreshSec : Nat)
    (tr : List Step) :
    (setupEffect none refreshSec initState).error
      = some ("Configura VITE_ANALYTICS_URL") ∧
    (setupEffect none refreshSec initState).loading = false ∧
    (setupEffect none refreshSec initState).pending = [] ∧
    (setupEffect none refreshSec initState).timerArmed = false ∧
    (setupEffect none refreshSec initState).nextCid = 0 ∧
    (runTrace (setupEffect none refreshSec initState) tr).error
      = some ("Configura VITE_ANALYTICS_URL") ∧
    (runTrace (setupEffect none refreshSec initState) tr).pending = [] ∧
    (runTrace (setupEffect none refreshSec initState) tr).nextCid = 0 ∧
    (runTrace (setupEffect none refreshSec initState) tr).timerArmed
      = false := by
  obtain ⟨a1, a2, a3, a4, a5, a6, a7⟩ :=
    runTrace_inert tr (setupEffect none refreshSec initState) rfl rfl
  exact ⟨rfl, rfl, rfl, rfl, rfl, a5.trans rfl, a1, a7.trans rfl, a2⟩

/-- A live state showing a previously raised error banner, with one
background cycle in flight. -/
def sBanner : CtrlState :=
  { mounted := true, timerArmed := true, loading := false,
    error := some ("500"), lastUpdated := some 3, view := initViewState,
    pending := [7], nextCid := 8, clock := 9 }

/-- C10: every successful commit — a settlement, while the effect is live,
whose seven responses are all 2xx and whose commit block runs to completion
(no literal-null list body), background or foreground alike (the commit
path does not look at `isBackground`) — sets the error to `none` and writes
a fresh `lastUpdated`, so an earlier error banner disappears on the next
successful cycle.  A settlement whose commit throws mid-way never reaches
`setError(null)`/`setLastUpdated` and is not a successful commit. -/
theorem c10_success_clears_error (s : CtrlState) (cid : Nat)
    (rs : Responses7) (hm : s.mounted = true)
    (hp : s.pending.contains cid = true) (hok : allOk rs = true)
    (hclean : noNullListBody rs = true) :
    (step s (Step.finish cid (Outcome.responses rs))).error = none ∧
    (step s (Step.finish cid (Outcome.responses rs))).lastUpdated
      = some (s.clock + 1) := by
  obtain ⟨-, h1, h2, -, -⟩ := commit_on_success s cid rs hm hp hok hclean
  exact ⟨h1, h2⟩

/-- Witness for C10: from a state showing an error banner with a background
cycle in flight, that cycle's successful settlement clears the error and
stamps the new update time. -/
theorem c10_success_clears_error_witness :
    (step sBanner (Step.finish 7 (Outcome.responses rsB))).error = none ∧
    (step sBanner (Step.finish 7 (Outcome.responses rsB))).lastUpdated
      = some 10 :=
  c10_success_clears_error sBanner 7 rsB rfl rfl rfl rfl
